import Mathlib

set_option maxHeartbeats 1000000

/-!
Shallow embedding of the image-capture tool in `src/main.py`.

The script has two logical pieces:
* the frontal-pose acceptance check `check_side_angle` (lines 55-67), which
  reads the x coordinates of landmarks 33 (left eye), 263 (right eye) and
  1 (nose tip) and accepts iff `|nx - (lx+rx)/2| / |lx - rx| <= 0.35`;
* the per-person capture session kept in Streamlit session state
  (`person_name`, `last_name`, `photo_count`, `person_safe_name`), driven by
  the top-level script body: name submission (lines 122-128), quota gating
  (lines 131-140), detection / pose check / save / upload (lines 142-171).

Modelling conventions:
* Python floats are modelled as rationals; Python float division raises
  `ZeroDivisionError` exactly when the denominator is `0`, which the
  embedding makes explicit with an `Except` result.
* The filesystem is modelled as a map from a person folder key to the number
  of `.jpg` files in that folder (`SessionState.disk`); a successful
  `pil_image.save` adds exactly one `.jpg` file to the person's folder.
* `datetime.now().strftime` is modelled by passing the formatted timestamp
  string in with the frame (real time is outside the embedding).
* A frame submission carries the detector output (`none` when mediapipe finds
  no face; at most one face since `FaceMesh` is built with `max_num_faces=1`)
  and the success of the two external effects, the local `pil_image.save`
  and the Google Drive upload.
* An uncaught Python exception ends the Streamlit script run with the session
  state as it was at the raise point; this is the `crashed` outcome.
-/

/-- `DATASET_FOLDER = "dataset"` (line 15). -/
def DATASET_FOLDER : String := "dataset"

/-- `MAX_PHOTOS_PER_PERSON = 6` (line 16). -/
def MAX_PHOTOS_PER_PERSON : Nat := 6

/-- `MAX_SIDE_OFFSET = 0.35` (line 17), as a rational. -/
def MAX_SIDE_OFFSET : ℚ := 35 / 100

/-- `LEFT_EYE = 33` (line 57). -/
def LEFT_EYE : Nat := 33

/-- `RIGHT_EYE = 263` (line 58). -/
def RIGHT_EYE : Nat := 263

/-- `NOSE_TIP = 1` (line 59). -/
def NOSE_TIP : Nat := 1

/-- One mediapipe landmark: normalized x and y coordinates. -/
structure Landmark where
  x : ℚ
  y : ℚ
deriving DecidableEq

/-- Python exceptions that the script can raise and does not catch. -/
inductive PyError where
  | zeroDivisionError
  | saveError
deriving DecidableEq

/-- Reasons a frame submission does not produce a saved photo.
`MultipleFacesDetected` and `MissingLandmarks` are listed in the spec's
taxonomy; the code as written never produces them (the detector is limited to
one face, and degenerate geometry raises instead of rejecting). -/
inductive RejectReason where
  | NoFaceDetected
  | MultipleFacesDetected
  | MissingLandmarks
  | SidewaysPose
  | QuotaReached
deriving DecidableEq

/-- Result of one frame submission.
`unavailable` is the `person_name == ""` branch (line 174): the camera widget
is not rendered at all. `accepted fn u` is a frame that passed the checks and
was saved locally as `fn`; `u` records whether the Drive upload succeeded
(`u = false` is the `st.error` branch of lines 170-171). `crashed e` is an
uncaught exception: the run aborts with state unchanged from the raise point. -/
inductive CaptureOutcome where
  | unavailable
  | rejected (r : RejectReason)
  | accepted (filename : String) (uploadOk : Bool)
  | crashed (e : PyError)
deriving DecidableEq

/-- `check_side_angle` (lines 55-67). Reads the landmark x coordinates,
computes the eye center and the nose offset ratio, and accepts iff the ratio
is at most `MAX_SIDE_OFFSET`. Python's `abs(nx - eye_center) / abs(lx - rx)`
raises `ZeroDivisionError` exactly when `abs(lx - rx) == 0`, i.e. `lx = rx`;
the embedding returns that error explicitly. -/
def check_side_angle (landmarks : Nat → Landmark) : Except PyError Bool :=
  let lx := (landmarks LEFT_EYE).x
  let rx := (landmarks RIGHT_EYE).x
  let nx := (landmarks NOSE_TIP).x
  let eye_center := (lx + rx) / 2
  if lx = rx then Except.error PyError.zeroDivisionError
  else Except.ok (decide (|nx - eye_center| / |lx - rx| ≤ MAX_SIDE_OFFSET))

/-- Python `name.replace(" ", "_")`: a single-character pattern, so a plain
character map. -/
def pyReplace (l : List Char) : List Char :=
  l.map (fun c => if c = ' ' then '_' else c)

/-- The characters Python `str.strip()` removes (ASCII whitespace). -/
def isPySpace (c : Char) : Bool :=
  c = ' ' || c = '\t' || c = '\n' || c = '\r' || c = '\x0b' || c = '\x0c'

/-- Python `str.strip()`: drop whitespace from both ends. -/
def pyStrip (l : List Char) : List Char :=
  ((l.dropWhile isPySpace).reverse.dropWhile isPySpace).reverse

/-- Python `str.lower()` on ASCII letters (`Char.toLower` maps `A`-`Z`
to `a`-`z` and fixes everything else, matching `str.lower` on the ASCII
range used here). -/
def pyLower (l : List Char) : List Char :=
  l.map Char.toLower

/-- The person-key computation of `create_folder` (line 37):
`safe_name = name.replace(" ", "_").strip().lower()` — replace spaces by
underscores FIRST, then strip whitespace, then lowercase. -/
def safe_name (name : String) : String :=
  String.mk (pyLower (pyStrip (pyReplace name.data)))

/-- Python `f"{n:02d}"`: decimal digits zero-padded on the left to at least
width 2. -/
def format02d (n : Nat) : String :=
  if n < 10 then "0" ++ toString n else toString n

/-- `save_image_locally` (lines 43-53), abstracted over the filesystem: given
the person key, the number of `.jpg` files currently in the person's folder,
and the formatted timestamp, it produces the filename
`{person_name}_{photo_count:02d}_{timestamp}.jpg` with
`photo_count = jpgCount + 1`, and that `photo_count` value, which the caller
stores into the session's counter (line 52 assigns it, it does not add). -/
def save_image_locally (person_name : String) (jpgCount : Nat) (timestamp : String) :
    String × Nat :=
  let photo_count := jpgCount + 1
  let filename := person_name ++ "_" ++ format02d photo_count ++ "_" ++ timestamp ++ ".jpg"
  (filename, photo_count)

/-- The Streamlit session state the script keeps between reruns
(lines 113-127), plus the modelled filesystem: `disk k` is the number of
`.jpg` files in the folder `dataset/k`. -/
structure SessionState where
  person_name : String
  last_name : String
  photo_count : Nat
  person_safe_name : String
  disk : String → Nat

/-- The name-submission block (lines 122-128): acts only when the entered
name is non-empty (Python truthiness of a string) AND differs from the raw
`last_name`; then it records the raw name, resets the counter to 0, computes
the safe name via `create_folder`, and remembers the raw name as `last_name`.
Folder creation adds no `.jpg` files, so `disk` is unchanged. -/
def identify (s : SessionState) (new_name : String) : SessionState :=
  if new_name ≠ "" ∧ new_name ≠ s.last_name then
    { s with person_name := new_name, photo_count := 0,
             person_safe_name := safe_name new_name, last_name := new_name }
  else s

/-- One submitted webcam frame together with the external-world outcomes the
script meets while handling it: the detector output (`none` when mediapipe
returns no face; at most one set of landmarks since `max_num_faces=1`), the
success of the local `pil_image.save`, the success of the Drive upload, and
the `strftime("%Y%m%d_%H%M%S")` timestamp at save time. -/
structure Frame where
  detection : Option (Nat → Landmark)
  saveOk : Bool
  uploadOk : Bool
  timestamp : String

/-- One frame submission against the capture block (lines 131-171):
no camera when no person is identified (line 174); camera disabled once
`count >= MAX_PHOTOS_PER_PERSON` (lines 135-137); then mediapipe detection
(no face → warn, lines 148-149), the pose check (`False` → warn, lines
154-155; `ZeroDivisionError` propagates uncaught), and on success
`save_image_locally` (which also sets the session counter) followed by the
Drive upload inside `try/except` (lines 167-171) — an upload failure is shown
via `st.error` and changes nothing further. A failing local save raises out
of the script before the counter assignment, leaving state unchanged. -/
def captureFrame (s : SessionState) (f : Frame) : SessionState × CaptureOutcome :=
  if s.person_name = "" then (s, CaptureOutcome.unavailable)
  else if MAX_PHOTOS_PER_PERSON ≤ s.photo_count then
    (s, CaptureOutcome.rejected RejectReason.QuotaReached)
  else
    match f.detection with
    | none => (s, CaptureOutcome.rejected RejectReason.NoFaceDetected)
    | some face_landmarks =>
      match check_side_angle face_landmarks with
      | Except.error e => (s, CaptureOutcome.crashed e)
      | Except.ok false => (s, CaptureOutcome.rejected RejectReason.SidewaysPose)
      | Except.ok true =>
        if f.saveOk then
          ({ s with
              photo_count :=
                (save_image_locally s.person_safe_name (s.disk s.person_safe_name)
                  f.timestamp).2,
              disk := Function.update s.disk s.person_safe_name
                (save_image_locally s.person_safe_name (s.disk s.person_safe_name)
                  f.timestamp).2 },
           CaptureOutcome.accepted
             (save_image_locally s.person_safe_name (s.disk s.person_safe_name)
               f.timestamp).1
             f.uploadOk)
        else (s, CaptureOutcome.crashed PyError.saveError)

/-- `Complete` state of the spec's state machine: the code's gate
`count >= MAX_PHOTOS_PER_PERSON` (line 135). -/
def isComplete (s : SessionState) : Bool :=
  decide (MAX_PHOTOS_PER_PERSON ≤ s.photo_count)

/-- `Capturing` state of the spec's state machine: a person is identified and
the quota is not yet reached. -/
def isCapturing (s : SessionState) : Bool :=
  decide (s.person_name ≠ "") && decide (s.photo_count < MAX_PHOTOS_PER_PERSON)

/-- An accepted capture: the frame passed all checks and was persisted. -/
def AcceptedStep (s : SessionState) (f : Frame) (s' : SessionState) : Prop :=
  ∃ fn u, captureFrame s f = (s', CaptureOutcome.accepted fn u)

/-- Filename convention as the spec words it: `{personKey}_{sequence:02d}_
{timestamp}.jpg` where `sequence` is the count of existing `.jpg` files in
the person's folder at save time plus 1 (the timestamp is the
`yyyyMMdd_HHmmss`-formatted capture time, taken as given here). -/
def spec_filename (personKey : String) (seq : Nat) (timestamp : String) : String :=
  personKey ++ "_" ++ format02d seq ++ "_" ++ timestamp ++ ".jpg"

/-- Person-key computation as the spec words it: trim surrounding whitespace,
lowercase, replace spaces with underscores — in that order. Compare with
`safe_name`, which is translated from the code and replaces spaces FIRST. -/
def spec_personKey (name : String) : String :=
  String.mk (pyReplace (pyLower (pyStrip name.data)))

/-- Concrete landmark set: left eye at x = 0, right eye at x = 1, every other
landmark (including the nose tip) at x = 17/20. Eye center is 1/2, so the
nose offset ratio is |17/20 - 1/2| / |0 - 1| = 7/20 = 0.35, exactly the
threshold. -/
def LW : Nat → Landmark := fun i =>
  if i = LEFT_EYE then ⟨0, 0⟩ else if i = RIGHT_EYE then ⟨1, 0⟩ else ⟨17 / 20, 0⟩

/-- Degenerate landmark set: every landmark at x = 1/2, so the inter-eye
distance is zero. -/
def Ldeg : Nat → Landmark := fun _ => ⟨1 / 2, 1 / 2⟩

/-- A fixed capture timestamp. -/
def tsW : String := "20260101_000000"

/-- A frame with a good frontal face whose save and upload both succeed. -/
def fW : Frame := ⟨some LW, true, true, tsW⟩

/-- A frame on which mediapipe detects no face. -/
def fNoFace : Frame := ⟨none, true, true, tsW⟩

/-- Filesystem with `k` jpg files in the folder of person key `john` and
nothing anywhere else. -/
def dW (k : Nat) : String → Nat := fun key => if key = "john" then k else 0

/-- Session for the identified person `John` (key `john`) with counter `k`
and `k` files already on disk — the state reached after `k` accepted captures
of a fresh session over an initially empty folder. -/
def sWs (k : Nat) : SessionState := ⟨"John", "John", k, "john", dW k⟩

/-- Pointwise characterization of a record-field extensionality for session
states. -/
theorem SessionState.ext_mk {a b : SessionState}
    (h1 : a.person_name = b.person_name) (h2 : a.last_name = b.last_name)
    (h3 : a.photo_count = b.photo_count)
    (h4 : a.person_safe_name = b.person_safe_name) (h5 : a.disk = b.disk) :
    a = b := by
  cases a; cases b; simp_all

/-- Re-submitting the currently remembered raw name is a no-op
(line 122 compares the raw strings). -/
theorem identify_same (s : SessionState) : identify s s.last_name = s := by
  unfold identify
  rw [if_neg]
  intro hc
  exact hc.2 rfl

/-- Submitting an empty name is a no-op (Python string truthiness,
line 122). -/
theorem identify_empty (s : SessionState) : identify s "" = s := by
  unfold identify
  rw [if_neg]
  intro hc
  exact hc.1 rfl

/-- Submitting a non-empty name different from the remembered raw name
resets the counter and recomputes the key; the filesystem is untouched. -/
theorem identify_new (s : SessionState) (nm : String) (h1 : nm ≠ "")
    (h2 : nm ≠ s.last_name) :
    identify s nm = ⟨nm, nm, 0, safe_name nm, s.disk⟩ := by
  unfold identify
  rw [if_pos ⟨h1, h2⟩]

/-- The landmark set `LW` passes the pose check, with the offset ratio
exactly at the threshold. -/
theorem check_LW : check_side_angle LW = Except.ok true := by
  show (if (LW LEFT_EYE).x = (LW RIGHT_EYE).x
        then Except.error PyError.zeroDivisionError
        else Except.ok (decide
          (|(LW NOSE_TIP).x - ((LW LEFT_EYE).x + (LW RIGHT_EYE).x) / 2| /
             |(LW LEFT_EYE).x - (LW RIGHT_EYE).x| ≤ MAX_SIDE_OFFSET)))
      = Except.ok true
  rw [if_neg (by norm_num [LW, LEFT_EYE, RIGHT_EYE])]
  refine congrArg Except.ok (decide_eq_true ?_)
  show |(17 / 20 : ℚ) - (0 + 1) / 2| / |(0 : ℚ) - 1| ≤ MAX_SIDE_OFFSET
  rw [show ((17 / 20 : ℚ) - (0 + 1) / 2) = 7 / 20 by norm_num,
      show ((0 : ℚ) - 1) = -1 by norm_num, abs_neg, abs_one,
      abs_of_nonneg (by norm_num : (0 : ℚ) ≤ 7 / 20)]
  unfold MAX_SIDE_OFFSET
  norm_num

/-- A frame that reaches the save stage (non-empty person, quota not
reached, one face detected, pose accepted) and whose save succeeds produces
the accepted outcome with the counter set from the on-disk file count. -/
theorem captureFrame_accept (s : SessionState) (f : Frame)
    (L : Nat → Landmark) (hname : s.person_name ≠ "")
    (hq : s.photo_count < MAX_PHOTOS_PER_PERSON)
    (hdet : f.detection = some L)
    (hpose : check_side_angle L = Except.ok true) (hsave : f.saveOk = true) :
    captureFrame s f =
      ({ s with
          photo_count :=
            (save_image_locally s.person_safe_name (s.disk s.person_safe_name)
              f.timestamp).2,
          disk := Function.update s.disk s.person_safe_name
            (save_image_locally s.person_safe_name (s.disk s.person_safe_name)
              f.timestamp).2 },
       CaptureOutcome.accepted
         (save_image_locally s.person_safe_name (s.disk s.person_safe_name)
           f.timestamp).1
         f.uploadOk) := by
  unfold captureFrame
  rw [if_neg hname, if_neg (Nat.not_le.mpr hq), hdet]
  dsimp only
  rw [hpose]
  dsimp only
  rw [if_pos hsave]

/-- Once the quota is reached, any frame submission is rejected with
`QuotaReached` and the state is untouched (lines 135-137). -/
theorem captureFrame_quota (s : SessionState) (f : Frame)
    (hname : s.person_name ≠ "")
    (hq : MAX_PHOTOS_PER_PERSON ≤ s.photo_count) :
    captureFrame s f = (s, CaptureOutcome.rejected RejectReason.QuotaReached) := by
  unfold captureFrame
  rw [if_neg hname, if_pos hq]

/-- Inversion: an accepted outcome can only come from the save branch, so it
determines the guard conditions, the filename, the upload flag, and the next
state. -/
theorem accept_inversion {s s' : SessionState} {f : Frame} {fn : String}
    {u : Bool}
    (h : captureFrame s f = (s', CaptureOutcome.accepted fn u)) :
    s.person_name ≠ "" ∧ s.photo_count < MAX_PHOTOS_PER_PERSON ∧
    f.saveOk = true ∧ u = f.uploadOk ∧
    fn = (save_image_locally s.person_safe_name (s.disk s.person_safe_name)
      f.timestamp).1 ∧
    s' = { s with
            photo_count :=
              (save_image_locally s.person_safe_name (s.disk s.person_safe_name)
                f.timestamp).2,
            disk := Function.update s.disk s.person_safe_name
              (save_image_locally s.person_safe_name (s.disk s.person_safe_name)
                f.timestamp).2 } := by
  unfold captureFrame at h
  split at h
  next => simp at h
  next hname2 =>
    split at h
    next => simp at h
    next hq2 =>
      split at h
      next => simp at h
      next L2 hdet2 =>
        split at h
        next => simp at h
        next => simp at h
        next =>
          split at h
          next hsave2 =>
            simp only [Prod.mk.injEq, CaptureOutcome.accepted.injEq] at h
            exact ⟨hname2, Nat.lt_of_not_le hq2, hsave2, h.2.2.symm,
              h.2.1.symm, h.1.symm⟩
          next => simp at h

/-- Inversion: a rejected outcome leaves the state untouched, and any
rejection other than `QuotaReached` happens below the quota gate with a
person identified. -/
theorem rejected_inversion {s s' : SessionState} {f : Frame}
    {r : RejectReason}
    (h : captureFrame s f = (s', CaptureOutcome.rejected r)) :
    s' = s ∧ (r ≠ RejectReason.QuotaReached →
      s.person_name ≠ "" ∧ s.photo_count < MAX_PHOTOS_PER_PERSON) := by
  unfold captureFrame at h
  split at h
  next => simp at h
  next hname2 =>
    split at h
    next =>
      simp only [Prod.mk.injEq, CaptureOutcome.rejected.injEq] at h
      exact ⟨h.1.symm, fun hr => absurd h.2.symm hr⟩
    next hq2 =>
      split at h
      next =>
        simp only [Prod.mk.injEq, CaptureOutcome.rejected.injEq] at h
        exact ⟨h.1.symm, fun _ => ⟨hname2, Nat.lt_of_not_le hq2⟩⟩
      next L2 hdet2 =>
        split at h
        next => simp at h
        next =>
          simp only [Prod.mk.injEq, CaptureOutcome.rejected.injEq] at h
          exact ⟨h.1.symm, fun _ => ⟨hname2, Nat.lt_of_not_le hq2⟩⟩
        next =>
          split at h
          next => simp at h
          next => simp at h

/-- The field-level consequences of one accepted capture: the counter is set
to the pre-save on-disk count plus one, the person folder gains one file, the
identity fields are unchanged, and the step can only happen below the
quota with a person identified. -/
theorem acceptedStep_facts {s s' : SessionState} {f : Frame}
    (h : AcceptedStep s f s') :
    s'.photo_count = s.disk s.person_safe_name + 1 ∧
    s'.disk s.person_safe_name = s.disk s.person_safe_name + 1 ∧
    s'.person_safe_name = s.person_safe_name ∧
    s'.person_name = s.person_name ∧
    s'.last_name = s.last_name ∧
    s.photo_count < MAX_PHOTOS_PER_PERSON ∧
    s.person_name ≠ "" := by
  obtain ⟨fn, u, h⟩ := h
  obtain ⟨hname, hq, -, -, -, hs⟩ := accept_inversion h
  subst hs
  refine ⟨?_, ?_, rfl, rfl, rfl, hq, hname⟩
  · simp [save_image_locally]
  · simp [save_image_locally, Function.update_same]

/-- Updating the `john` folder count from `k` to `k + 1` in the witness
filesystem. -/
theorem dW_update (k : Nat) :
    Function.update (dW k) "john" (k + 1) = dW (k + 1) := by
  funext key
  rw [Function.update_apply]
  unfold dW
  by_cases hkey : key = "john" <;> simp [hkey]

/-- One accepted capture of the witness session: counter and folder count go
from `k` to `k + 1` and the saved filename carries sequence number `k + 1`. -/
theorem capture_sWs_step (k : Nat) (hk : k < MAX_PHOTOS_PER_PERSON) :
    captureFrame (sWs k) fW =
      (sWs (k + 1),
       CaptureOutcome.accepted ((save_image_locally "john" k tsW).1) true) := by
  have h := captureFrame_accept (sWs k) fW LW (by simp [sWs]) hk rfl check_LW rfl
  rw [h]
  rw [Prod.mk.injEq]
  constructor
  · exact SessionState.ext_mk rfl rfl rfl rfl (dW_update k)
  · rfl

/-- Claim C1: for every capture session that starts with counter = 0 and
quota = 6, after 6 consecutive accepted captures the session is in the
Complete state with counter exactly 6; any further capture attempt is
rejected with QuotaReached while the state (hence the counter) stays put;
submitting an empty name or the same name leaves the state unchanged, and
only identifying a new person (a non-empty name different from the
remembered one) exits the Complete state, with the counter reset to 0. -/
theorem C1_quota_complete
    (s0 s1 s2 s3 s4 s5 s6 : SessionState) (f1 f2 f3 f4 f5 f6 : Frame)
    (h0 : s0.photo_count = 0)
    (h1 : AcceptedStep s0 f1 s1) (h2 : AcceptedStep s1 f2 s2)
    (h3 : AcceptedStep s2 f3 s3) (h4 : AcceptedStep s3 f4 s4)
    (h5 : AcceptedStep s4 f5 s5) (h6 : AcceptedStep s5 f6 s6) :
    s6.photo_count = 6 ∧ isComplete s6 = true ∧
    (∀ f, captureFrame s6 f =
      (s6, CaptureOutcome.rejected RejectReason.QuotaReached)) ∧
    identify s6 "" = s6 ∧ identify s6 s6.last_name = s6 ∧
    (∀ nm, nm ≠ "" → nm ≠ s6.last_name →
      (identify s6 nm).photo_count = 0 ∧
      isComplete (identify s6 nm) = false) := by
  obtain ⟨c1, d1, k1, n1, l1, q1, e1⟩ := acceptedStep_facts h1
  obtain ⟨c2, d2, k2, n2, l2, q2, e2⟩ := acceptedStep_facts h2
  obtain ⟨c3, d3, k3, n3, l3, q3, e3⟩ := acceptedStep_facts h3
  obtain ⟨c4, d4, k4, n4, l4, q4, e4⟩ := acceptedStep_facts h4
  obtain ⟨c5, d5, k5, n5, l5, q5, e5⟩ := acceptedStep_facts h5
  obtain ⟨c6, d6, k6, n6, l6, q6, e6⟩ := acceptedStep_facts h6
  rw [k1] at c2 d2 k2
  rw [k2] at c3 d3 k3
  rw [k3] at c4 d4 k4
  rw [k4] at c5 d5 k5
  rw [k5] at c6 d6 k6
  have hM : MAX_PHOTOS_PER_PERSON = 6 := rfl
  rw [hM] at q1 q2 q3 q4 q5 q6
  have hcount : s6.photo_count = 6 := by omega
  have hname : s6.person_name ≠ "" := by
    rw [n6, n5, n4, n3, n2, n1]; exact e1
  refine ⟨hcount, ?_, ?_, identify_empty s6, identify_same s6, ?_⟩
  · show decide (MAX_PHOTOS_PER_PERSON ≤ s6.photo_count) = true
    rw [hcount]
    rfl
  · intro f
    exact captureFrame_quota s6 f hname (by rw [hcount]; decide)
  · intro nm hne hdiff
    rw [identify_new s6 nm hne hdiff]
    exact ⟨rfl, rfl⟩

/-- Witness for C1: the concrete session for `John` over an initially empty
folder reaches counter 6 and the Complete state after 6 accepted captures,
the next frame is rejected with QuotaReached, and identifying `Mary` resets
the counter to 0. -/
theorem C1_witness :
    (sWs 6).photo_count = 6 ∧ isComplete (sWs 6) = true ∧
    captureFrame (sWs 6) fW =
      (sWs 6, CaptureOutcome.rejected RejectReason.QuotaReached) ∧
    (identify (sWs 6) "Mary").photo_count = 0 := by
  have H := C1_quota_complete (sWs 0) (sWs 1) (sWs 2) (sWs 3) (sWs 4) (sWs 5)
    (sWs 6) fW fW fW fW fW fW rfl
    ⟨_, _, capture_sWs_step 0 (by decide)⟩ ⟨_, _, capture_sWs_step 1 (by decide)⟩
    ⟨_, _, capture_sWs_step 2 (by decide)⟩ ⟨_, _, capture_sWs_step 3 (by decide)⟩
    ⟨_, _, capture_sWs_step 4 (by decide)⟩ ⟨_, _, capture_sWs_step 5 (by decide)⟩
  exact ⟨H.1, H.2.1, H.2.2.1 fW,
    (H.2.2.2.2.2 "Mary" (by decide) (by decide)).1⟩

/-- Claim C3 (code bug): whenever the left-eye x coordinate equals the
right-eye x coordinate, the code divides by zero: `check_side_angle` raises
an uncaught ZeroDivisionError instead of returning the MissingLandmarks
rejection the spec requires, and in particular never returns a decision. -/
theorem C3_degenerate_divides_by_zero (L : Nat → Landmark)
    (h : (L LEFT_EYE).x = (L RIGHT_EYE).x) :
    check_side_angle L = Except.error PyError.zeroDivisionError ∧
    ∀ b, check_side_angle L ≠ Except.ok b := by
  have he : check_side_angle L = Except.error PyError.zeroDivisionError := by
    show (if (L LEFT_EYE).x = (L RIGHT_EYE).x
          then Except.error PyError.zeroDivisionError
          else Except.ok (decide
            (|(L NOSE_TIP).x - ((L LEFT_EYE).x + (L RIGHT_EYE).x) / 2| /
               |(L LEFT_EYE).x - (L RIGHT_EYE).x| ≤ MAX_SIDE_OFFSET)))
        = Except.error PyError.zeroDivisionError
    rw [if_pos h]
  refine ⟨he, fun b hb => ?_⟩
  rw [he] at hb
  exact Except.noConfusion hb

/-- Witness for C3: at the concrete degenerate landmark set with every
landmark at x = 1/2, the evaluator raises ZeroDivisionError and does not
return an accept decision. -/
theorem C3_witness :
    check_side_angle Ldeg = Except.error PyError.zeroDivisionError ∧
    check_side_angle Ldeg ≠ Except.ok true := by
  have H := C3_degenerate_divides_by_zero Ldeg rfl
  exact ⟨H.1, H.2 true⟩

/-- Claim C5: re-submitting the same raw name as the last submitted name is
a no-op (the counter stays at its value n), and a non-empty name different
from the last submitted one resets the counter to 0. -/
theorem C5_resubmit_same_name (s : SessionState) :
    identify s s.last_name = s ∧
    (∀ nm, nm ≠ "" → nm ≠ s.last_name → (identify s nm).photo_count = 0) := by
  refine ⟨identify_same s, fun nm h1 h2 => ?_⟩
  rw [identify_new s nm h1 h2]

/-- Witness for C5: with counter 3 for `John`, re-submitting `John` keeps
the counter at 3; submitting `Mary` resets it to 0. -/
theorem C5_witness :
    identify (sWs 3) "John" = sWs 3 ∧
    (identify (sWs 3) "John").photo_count = 3 ∧
    (identify (sWs 3) "Mary").photo_count = 0 := by
  have H := C5_resubmit_same_name (sWs 3)
  have h1 : identify (sWs 3) "John" = sWs 3 := H.1
  refine ⟨h1, ?_, H.2 "Mary" (by decide) (by decide)⟩
  rw [h1]
  rfl

/-- Counterexample to C6 as stated: the code computes
`replace(" ", "_")` BEFORE `strip()`, so a leading space becomes a leading
underscore instead of being trimmed: the name `" john"` yields key
`"_john"`, not the `"john"` that the spec's trim-lowercase-replace order
(`spec_personKey`) produces — a name with leading spaces does NOT yield the
same key as the name without them. -/
theorem C6_counterexample :
    safe_name " john" = "_john" ∧ spec_personKey " john" = "john" ∧
    safe_name " john" ≠ spec_personKey " john" ∧
    safe_name " john" ≠ safe_name "john" := by decide

/-- Claim C6 (amended): the person key is computed by replacing spaces with
underscores FIRST, then trimming whitespace, then lowercasing; consequently
a name with leading or trailing spaces yields the same key as that name
with those spaces replaced by underscores (rather than the key of the
trimmed name). -/
theorem C6_spaces_become_underscores (nm : String) :
    safe_name (" " ++ nm ++ " ") = safe_name ("_" ++ nm ++ "_") := by
  unfold safe_name
  have hrep : pyReplace ((" " ++ nm ++ " ").data)
      = pyReplace (("_" ++ nm ++ "_").data) := by
    rw [String.data_append, String.data_append, String.data_append,
      String.data_append]
    unfold pyReplace
    rw [List.map_append, List.map_append, List.map_append, List.map_append]
    have hsp : (" " : String).data.map (fun c => if c = ' ' then '_' else c)
        = ("_" : String).data.map (fun c => if c = ' ' then '_' else c) := by
      decide
    rw [hsp]
  rw [hrep]

/-- Claim C7: every per-frame rejection among NoFaceDetected,
MultipleFacesDetected, MissingLandmarks and SidewaysPose leaves the session
state exactly as it was — counter unchanged, no file persisted — and the
session was and remains in the Capturing state. -/
theorem C7_rejection_keeps_state (s s' : SessionState) (f : Frame)
    (r : RejectReason)
    (h : captureFrame s f = (s', CaptureOutcome.rejected r))
    (hr : r = RejectReason.NoFaceDetected ∨
          r = RejectReason.MultipleFacesDetected ∨
          r = RejectReason.MissingLandmarks ∨
          r = RejectReason.SidewaysPose) :
    s' = s ∧ s'.photo_count = s.photo_count ∧ s'.disk = s.disk ∧
    isCapturing s = true ∧ isCapturing s' = true := by
  obtain ⟨hs, hcond⟩ := rejected_inversion h
  have hrq : r ≠ RejectReason.QuotaReached := by
    rcases hr with h' | h' | h' | h' <;> simp [h']
  obtain ⟨hname, hq⟩ := hcond hrq
  subst hs
  refine ⟨rfl, rfl, rfl, ?_, ?_⟩ <;>
    · simp only [isCapturing, Bool.and_eq_true, decide_eq_true_eq]
      exact ⟨hname, hq⟩

/-- Witness for C7: a no-face frame against the concrete fresh session is
rejected with NoFaceDetected and the state is untouched, still Capturing. -/
theorem C7_witness :
    captureFrame (sWs 0) fNoFace =
      (sWs 0, CaptureOutcome.rejected RejectReason.NoFaceDetected) ∧
    isCapturing (sWs 0) = true := by
  have hstep : captureFrame (sWs 0) fNoFace =
      (sWs 0, CaptureOutcome.rejected RejectReason.NoFaceDetected) := rfl
  have H := C7_rejection_keeps_state (sWs 0) (sWs 0) fNoFace
    RejectReason.NoFaceDetected hstep (Or.inl rfl)
  exact ⟨hstep, H.2.2.2.1⟩

/-- Claim C8: every saved image file is named
`{personKey}_{sequence:02d}_{timestamp}.jpg` where `sequence` is the count
of jpg files already in the person's folder at save time plus 1 (the
timestamp being the `yyyyMMdd_HHmmss`-formatted save time carried by the
frame). -/
theorem C8_saved_filename (s s' : SessionState) (f : Frame) (fn : String)
    (u : Bool)
    (h : captureFrame s f = (s', CaptureOutcome.accepted fn u)) :
    fn = spec_filename s.person_safe_name (s.disk s.person_safe_name + 1)
      f.timestamp := by
  obtain ⟨-, -, -, -, hfn, -⟩ := accept_inversion h
  rw [hfn]
  rfl

/-- Witness for C8: the first accepted capture of the concrete fresh
session saves `john_01_20260101_000000.jpg`, which is the spec filename
with sequence 0 + 1 = 1. -/
theorem C8_witness :
    (save_image_locally "john" 0 tsW).1 = spec_filename "john" 1 tsW :=
  C8_saved_filename (sWs 0) (sWs 1) fW _ true (capture_sWs_step 0 (by decide))

/-- Claim C9: for every landmark set with non-degenerate eye geometry whose
offset ratio is exactly the configured threshold, the pose evaluator
accepts — the boundary comparison is inclusive. -/
theorem C9_threshold_inclusive (L : Nat → Landmark)
    (hne : (L LEFT_EYE).x ≠ (L RIGHT_EYE).x)
    (hth : |(L NOSE_TIP).x - ((L LEFT_EYE).x + (L RIGHT_EYE).x) / 2| /
        |(L LEFT_EYE).x - (L RIGHT_EYE).x| = MAX_SIDE_OFFSET) :
    check_side_angle L = Except.ok true := by
  show (if (L LEFT_EYE).x = (L RIGHT_EYE).x
        then Except.error PyError.zeroDivisionError
        else Except.ok (decide
          (|(L NOSE_TIP).x - ((L LEFT_EYE).x + (L RIGHT_EYE).x) / 2| /
             |(L LEFT_EYE).x - (L RIGHT_EYE).x| ≤ MAX_SIDE_OFFSET)))
      = Except.ok true
  rw [if_neg hne]
  exact congrArg Except.ok (decide_eq_true (le_of_eq hth))

/-- Witness for C9: the landmark set with eyes at x = 0 and x = 1 and nose
at x = 17/20 has offset ratio exactly 0.35 = MAX_SIDE_OFFSET and is
accepted. -/
theorem C9_witness : check_side_angle LW = Except.ok true := by
  refine C9_threshold_inclusive LW ?_ ?_
  · show (0 : ℚ) ≠ 1
    norm_num
  · show |(17 / 20 : ℚ) - (0 + 1) / 2| / |(0 : ℚ) - 1| = MAX_SIDE_OFFSET
    rw [show ((17 / 20 : ℚ) - (0 + 1) / 2) = 7 / 20 by norm_num,
        show ((0 : ℚ) - 1) = -1 by norm_num, abs_neg, abs_one,
        abs_of_nonneg (by norm_num : (0 : ℚ) ≤ 7 / 20)]
    unfold MAX_SIDE_OFFSET
    norm_num

/-- Claim C10: submitting a raw name that differs from the last submitted
one but normalizes to the same person key (e.g. a case variant) is treated
as a person change — the counter resets to 0 — while the person key (and
hence the destination folder) stays the same, because line 122 compares raw
names, not normalized keys. -/
theorem C10_case_variant_resets (s : SessionState) (nm : String)
    (h1 : nm ≠ "") (h2 : nm ≠ s.last_name)
    (h3 : safe_name nm = s.person_safe_name) :
    (identify s nm).photo_count = 0 ∧
    (identify s nm).person_safe_name = s.person_safe_name ∧
    (identify s nm).person_name = nm ∧ (identify s nm).disk = s.disk := by
  rw [identify_new s nm h1 h2]
  exact ⟨rfl, h3, rfl, rfl⟩

/-- Witness for C10: with counter 3 for raw name `John` (key `john`),
submitting `JOHN` — a different raw string with the same key — resets the
counter to 0 and keeps the key `john`. -/
theorem C10_witness :
    (identify (sWs 3) "JOHN").photo_count = 0 ∧
    (identify (sWs 3) "JOHN").person_safe_name = (sWs 3).person_safe_name := by
  have H := C10_case_variant_resets (sWs 3) "JOHN" (by decide) (by decide)
    (by decide)
  exact ⟨H.1, H.2.1⟩
